import Mathlib

/-!
Shallow embedding of the ReWear single-page client (src/App.js), restricted to
the exchange logic the specification describes: user points accounts, listing
documents, the redemption flow (`handleRedeemPoints` / `confirmRedeem`), the
swap-request flow (`handleSwapRequest` / `confirmSwap`), listing creation
(`handleSubmit` of ListItemPage), image selection (`handleImageUpload` /
`handleRemoveImage`), admin moderation (`handleModerateListing`), account
creation (the `onAuthStateChanged` / dashboard profile bootstrap) and account
deletion (`handleDeleteUser`).

Encoding conventions:
- Firestore documents are modelled as association lists keyed by document id;
  `addDoc` is modelled by prepending a binding under a caller-supplied fresh id.
- JavaScript numbers that the code treats as integers are modelled as `Int`.
- A nullable number field (`pointsValue`) is `Option Int`; JS truthiness of
  such a field (`null`, `0` falsy; any other number truthy) is `jsTruthy`.
- The points-value form field is an `<input type="number">`, whose value is
  always the empty string or a numeric string; it is modelled as `Option Int`
  where `none` is the empty string and `some n` a non-empty string whose
  `parseInt` is `n`. A non-empty string is truthy regardless of its value.
- UI-only actions (messages, navigation, spinners) have no effect on the
  store and are dropped; only reads and writes of Firestore state are kept.
-/

namespace ReWear

/-- Profile document stored at `artifacts/{appId}/users/{uid}` (fields written
at creation, src/App.js lines 955 and 1382-1386). -/
structure UserProfile where
  email : String
  points : Int
  memberSince : String
  deriving DecidableEq

/-- Listing document stored at `artifacts/{appId}/public/data/items/{id}`,
with exactly the fields `handleSubmit` writes (src/App.js lines 767-780).
The source field `type` is rendered as `itemType`. -/
structure Item where
  userId : String
  title : String
  description : String
  category : String
  itemType : String
  size : String
  condition : String
  tags : List String
  pointsValue : Option Int
  images : List String
  status : String
  createdAt : String
  deriving DecidableEq

/-- The two Firestore collections the exchange logic touches. -/
structure FirestoreState where
  items : List (String × Item)
  users : List (String × UserProfile)
  deriving DecidableEq

/-- Document lookup by id (first binding wins, as ids are unique). -/
def assocLookup {α : Type} : List (String × α) → String → Option α
  | [], _ => none
  | (a, b) :: t, k => if k = a then some b else assocLookup t k

/-- Read of an item document (`getDoc` on the items collection). -/
def getItem (st : FirestoreState) (id : String) : Option Item :=
  assocLookup st.items id

/-- Read of a user document (`getDoc` on the users collection). -/
def getUser (st : FirestoreState) (id : String) : Option UserProfile :=
  assocLookup st.users id

/-- Balance of the points account of `uid`: the stored `points` field, or 0
when no profile document exists yet (the spec creates accounts with balance 0
on first reference). -/
def balanceOf (st : FirestoreState) (uid : String) : Int :=
  match getUser st uid with
  | none => 0
  | some u => u.points

/-- JS truthiness of a nullable number: `null` and `0` are falsy, every other
number is truthy. -/
def jsTruthy : Option Int → Bool
  | none => false
  | some n => n != 0

/-- Outcomes of the redemption flow on the item detail page. Each constructor
corresponds to one message path of `handleRedeemPoints` / `confirmRedeem`
(src/App.js lines 519-565); `itemNotFound` is the fetch guard of
`fetchItemDetails` (lines 451-454) that leaves the page before the buttons
exist. -/
inductive RedeemResult where
  | itemNotFound
  | notLoggedIn
  | ownerCannotRedeem
  | notRedeemable
  | insufficientFunds
  | success
  deriving DecidableEq

/-- Check part of the redemption flow, `handleRedeemPoints` (src/App.js lines
519-543): login check, owner check, `!item.pointsValue` truthiness check, then
the balance read `!userSnap.exists() || userSnap.data().points <
item.pointsValue`. On all checks passing the confirm dialog opens. -/
def handleRedeemPoints (st : FirestoreState) (currentUserId : Option String)
    (item : Item) : RedeemResult :=
  match currentUserId with
  | none => RedeemResult.notLoggedIn
  | some uid =>
    if uid = item.userId then RedeemResult.ownerCannotRedeem
    else if jsTruthy item.pointsValue = false then RedeemResult.notRedeemable
    else
      match getUser st uid with
      | none => RedeemResult.insufficientFunds
      | some u =>
        if u.points < item.pointsValue.getD 0 then RedeemResult.insufficientFunds
        else RedeemResult.success

/-- Confirmation step `confirmRedeem` (src/App.js lines 545-565): it only
shows a success message; the point deduction and the item status update are
commented out in the source, so the store is returned unchanged. -/
def confirmRedeem (st : FirestoreState) (_currentUserId : String)
    (_itemId : String) : FirestoreState := st

/-- Whole redemption interaction on the item detail page: fetch the item,
run the checks, and on success run `confirmRedeem`. Returns the outcome and
the resulting store. -/
def redeemFlow (st : FirestoreState) (currentUserId : Option String)
    (itemId : String) : RedeemResult × FirestoreState :=
  match getItem st itemId with
  | none => (RedeemResult.itemNotFound, st)
  | some item =>
    match handleRedeemPoints st currentUserId item with
    | RedeemResult.success =>
        (RedeemResult.success, confirmRedeem st (currentUserId.getD "") itemId)
    | e => (e, st)

/-- Outcomes of the swap-request flow (`handleSwapRequest`, src/App.js lines
488-500). -/
inductive SwapResult where
  | itemNotFound
  | notLoggedIn
  | ownerCannotSwap
  | success
  deriving DecidableEq

/-- Check part of the swap flow, `handleSwapRequest` (src/App.js lines
488-500): login check and owner check only; no listing-status check and no
pending-swap check exist in the source. -/
def handleSwapRequest (currentUserId : Option String) (item : Item) : SwapResult :=
  match currentUserId with
  | none => SwapResult.notLoggedIn
  | some uid =>
    if uid = item.userId then SwapResult.ownerCannotSwap
    else SwapResult.success

/-- Confirmation step `confirmSwap` (src/App.js lines 502-517): it only shows
a success message; no swap-request document is created and nothing is written,
so the store is returned unchanged. -/
def confirmSwap (st : FirestoreState) : FirestoreState := st

/-- Whole swap-request interaction on the item detail page. -/
def swapFlow (st : FirestoreState) (currentUserId : Option String)
    (itemId : String) : SwapResult × FirestoreState :=
  match getItem st itemId with
  | none => (SwapResult.itemNotFound, st)
  | some item =>
    match handleSwapRequest currentUserId item with
    | SwapResult.success => (SwapResult.success, confirmSwap st)
    | e => (e, st)

/-- Form state of the list-item page (src/App.js lines 731-740). `tags` is
the raw comma-separated text field; `pointsValue` is the numeric input encoded
as in the header comment; `images` is the accumulated object-URL list. -/
structure ListItemForm where
  title : String
  description : String
  category : String
  itemType : String
  size : String
  condition : String
  tags : String
  pointsValue : Option Int
  images : List String
  deriving DecidableEq

/-- Tag processing of `handleSubmit` (src/App.js line 775):
split on commas, trim, drop empties. -/
def parseTags (tags : String) : List String :=
  ((tags.splitOn ",").map String.trim).filter (fun t => t ≠ "")

/-- Document built by `handleSubmit` (src/App.js lines 767-780). The field
`pointsValue: pointsValue ? parseInt(pointsValue, 10) : null` stores `null`
exactly when the field string is empty (the empty string is the only falsy
field value, and a non-empty numeric string parses to its integer, sign
included), hence the identity on the `Option Int` encoding. -/
def mkNewItem (currentUserId : String) (form : ListItemForm) (now : String) : Item :=
  { userId := currentUserId
  , title := form.title
  , description := form.description
  , category := form.category
  , itemType := form.itemType
  , size := form.size
  , condition := form.condition
  , tags := parseTags form.tags
  , pointsValue :=
      match form.pointsValue with
      | none => none
      | some n => some n
  , images := form.images
  , status := "available"
  , createdAt := now }

/-- `handleSubmit` of the list-item page (src/App.js lines 757-785): requires
a logged-in user, then `addDoc`s the new item. `addDoc` picks a fresh random
document id; the id is passed in as `newId`. -/
def handleSubmit (st : FirestoreState) (currentUserId : Option String)
    (newId : String) (form : ListItemForm) (now : String) : FirestoreState :=
  match currentUserId with
  | none => st
  | some uid => { st with items := (newId, mkNewItem uid form now) :: st.items }

/-- `URL.createObjectURL`, an opaque browser API producing one URL per file;
modelled as the identity on opaque file handles (only the count matters). -/
def createObjectURL (file : String) : String := file

/-- `handleImageUpload` (src/App.js lines 743-751): if the selected files
would bring the total above 5, the whole selection is dropped; otherwise all
object URLs are appended. -/
def handleImageUpload (images : List String) (files : List String) : List String :=
  if files.length + images.length > 5 then images
  else images ++ files.map createObjectURL

/-- `handleRemoveImage` (src/App.js lines 753-755): keep every entry whose
index differs from `indexToRemove`. -/
def handleRemoveImage (images : List String) (indexToRemove : Nat) : List String :=
  ((images.enum.filter fun p => p.1 ≠ indexToRemove).map Prod.snd)

/-- Events on the image list of the list-item form. -/
inductive ImageEvent where
  | upload (files : List String)
  | remove (idx : Nat)
  deriving DecidableEq

/-- One image-list event. -/
def stepImages (images : List String) : ImageEvent → List String
  | ImageEvent.upload files => handleImageUpload images files
  | ImageEvent.remove i => handleRemoveImage images i

/-- Image list reached from the initial `useState([])` after a sequence of
upload and remove events. -/
def runImages (evs : List ImageEvent) : List String :=
  evs.foldl stepImages []

/-- `handleModerateListing` (src/App.js lines 1168-1184): a `setDoc` with
`merge: true` that sets `status` to `available` on `approve` and to
`rejected` on any other action, with no precondition on the current status.
A merge write to a missing id would create a document holding only a
`status` field; such a fragment is outside the `Item` schema and outside
every claim, so the map is left unchanged there. -/
def handleModerateListing (st : FirestoreState) (listingId : String)
    (action : String) : FirestoreState :=
  { st with
    items := st.items.map fun p =>
      if p.1 = listingId then
        (p.1, { p.2 with status := if action = "approve" then "available" else "rejected" })
      else p }

/-- Profile bootstrap (src/App.js lines 1379-1387, same shape at line 955):
when no profile document exists for `uid`, create one with
`email: user.email || 'anonymous@rewear.com'`, `points: 0` and the current
date; otherwise leave the store unchanged. -/
def ensureUserProfile (st : FirestoreState) (uid : String)
    (email : Option String) (date : String) : FirestoreState :=
  match getUser st uid with
  | some _ => st
  | none =>
    { st with
      users := (uid,
        { email := email.getD "anonymous@rewear.com"
        , points := 0
        , memberSince := date }) :: st.users }

/-- `handleDeleteUser` (src/App.js lines 1186-1199): `deleteDoc` of the user
profile document. -/
def handleDeleteUser (st : FirestoreState) (uid : String) : FirestoreState :=
  { st with users := st.users.filter fun p => p.1 ≠ uid }

/-- Every store-touching operation the source can perform, with the inputs
each handler reads. -/
inductive Op where
  | ensureProfile (uid : String) (email : Option String) (date : String)
  | redeem (currentUserId : Option String) (itemId : String)
  | swap (currentUserId : Option String) (itemId : String)
  | listItem (currentUserId : Option String) (newId : String)
      (form : ListItemForm) (now : String)
  | moderate (listingId : String) (action : String)
  | deleteUser (uid : String)

/-- Effect of one operation on the store. -/
def stepOp (st : FirestoreState) : Op → FirestoreState
  | Op.ensureProfile uid e d => ensureUserProfile st uid e d
  | Op.redeem cu iid => (redeemFlow st cu iid).2
  | Op.swap cu iid => (swapFlow st cu iid).2
  | Op.listItem cu nid form now => handleSubmit st cu nid form now
  | Op.moderate lid a => handleModerateListing st lid a
  | Op.deleteUser uid => handleDeleteUser st uid

/-- Store reached after a sequence of operations. -/
def runOps (st : FirestoreState) (ops : List Op) : FirestoreState :=
  ops.foldl stepOp st

/-- The empty store before any operation. -/
def initialState : FirestoreState := { items := [], users := [] }

/-- Sample listing for concrete scenarios: owned by U1, redeemable for 100
points, currently available. -/
def sampleItem : Item :=
  { userId := "U1", title := "Denim Jacket", description := "Lightly used"
  , category := "Outerwear", itemType := "Jacket", size := "M"
  , condition := "Good", tags := ["denim"], pointsValue := some 100
  , images := [], status := "available", createdAt := "2026-01-01" }

/-- Profile of user U2 with 150 points, enough to redeem `sampleItem`. -/
def u2Profile : UserProfile :=
  { email := "u2@example.com", points := 150, memberSince := "2026-01-01" }

/-- Profile with 50 points, short of the 100 `sampleItem` costs. -/
def lowBalanceProfile : UserProfile :=
  { email := "low@example.com", points := 50, memberSince := "2026-01-01" }

/-- Store for the C1 scenario: listing L1 and funded redeemer U2. -/
def c1State : FirestoreState :=
  { items := [("L1", sampleItem)], users := [("U2", u2Profile)] }

/-- Store for the C2 witness: listing L1 and funded redeemer U2. -/
def c2State : FirestoreState :=
  { items := [("L1", sampleItem)], users := [("U2", u2Profile)] }

/-- Store for the C3 witness: listing L1 owned by U1. -/
def c3State : FirestoreState :=
  { items := [("L1", sampleItem)], users := [] }

/-- Store for the C4 counterexample: the owner U1 holds only 50 points. -/
def c4State : FirestoreState :=
  { items := [("L1", sampleItem)], users := [("U1", lowBalanceProfile)] }

/-- Store for the C4 witness: outside user U3 holds only 50 points. -/
def c4wState : FirestoreState :=
  { items := [("L1", sampleItem)], users := [("U3", lowBalanceProfile)] }

/-- Store for the C5 scenario: a single available listing L1. -/
def c5State : FirestoreState :=
  { items := [("L1", sampleItem)], users := [] }

/-- Store for the C6 scenario: L1 already in the terminal status redeemed. -/
def c6State : FirestoreState :=
  { items := [("L1", { sampleItem with status := "redeemed" })], users := [] }

/-- Store for the C7 scenario: listing L1 and funded redeemer U2. -/
def c7State : FirestoreState :=
  { items := [("L1", sampleItem)], users := [("U2", u2Profile)] }

/-- Form submission for the C9 counterexample: the numeric field holds the
non-empty string -5, which `parseInt` turns into the negative integer -5. -/
def c9Form : ListItemForm :=
  { title := "Scarf", description := "Wool", category := "Accessories"
  , itemType := "Scarf", size := "One size", condition := "Good"
  , tags := "wool", pointsValue := some (-5), images := [] }

/-- Form submission with the points field left empty (swap-only listing). -/
def c9wForm : ListItemForm :=
  { title := "Hat", description := "Felt", category := "Accessories"
  , itemType := "Hat", size := "One size", condition := "Good"
  , tags := "", pointsValue := none, images := [] }

/-- Listing without a points value, offered for swap only. -/
def swapOnlyItem : Item := { sampleItem with pointsValue := none }

/-- Form submission carrying an image list built by the upload handler. -/
def c10Form : ListItemForm :=
  { title := "Coat", description := "Warm", category := "Outerwear"
  , itemType := "Coat", size := "L", condition := "Good"
  , tags := "", pointsValue := none, images := ["a", "b", "c", "d"] }

/-- Every balance stored in the users collection is non-negative. -/
def BalancesNonneg (st : FirestoreState) : Prop :=
  ∀ p ∈ st.users, 0 ≤ (p.2).points

/-- A successful lookup finds a binding of the list. -/
theorem assocLookup_mem {α : Type} {l : List (String × α)} {k : String} {v : α}
    (h : assocLookup l k = some v) : (k, v) ∈ l := by
  induction l with
  | nil => simp [assocLookup] at h
  | cons p t ih =>
    obtain ⟨a, b⟩ := p
    by_cases hk : k = a
    · simp only [assocLookup, if_pos hk] at h
      injection h with h
      subst hk; subst h
      exact List.mem_cons_self _ _
    · simp only [assocLookup, if_neg hk] at h
      exact List.mem_cons_of_mem _ (ih h)

/-- The redemption flow never writes to the store: every branch, the success
branch included, returns the store it was given. -/
theorem redeemFlow_state (st : FirestoreState) (cu : Option String) (iid : String) :
    (redeemFlow st cu iid).2 = st := by
  unfold redeemFlow
  cases getItem st iid with
  | none => rfl
  | some item =>
    dsimp only
    cases handleRedeemPoints st cu item <;> rfl

/-- The swap-request flow never writes to the store. -/
theorem swapFlow_state (st : FirestoreState) (cu : Option String) (iid : String) :
    (swapFlow st cu iid).2 = st := by
  unfold swapFlow
  cases getItem st iid with
  | none => rfl
  | some item =>
    dsimp only
    cases handleSwapRequest cu item <;> rfl

/-- Listing submission never touches the users collection. -/
theorem handleSubmit_users (st : FirestoreState) (cu : Option String)
    (nid : String) (form : ListItemForm) (now : String) :
    (handleSubmit st cu nid form now).users = st.users := by
  cases cu <;> rfl

/-- One operation preserves non-negativity of every stored balance. -/
theorem balancesNonneg_step (st : FirestoreState) (op : Op)
    (h : BalancesNonneg st) : BalancesNonneg (stepOp st op) := by
  cases op with
  | ensureProfile uid e d =>
    show BalancesNonneg (ensureUserProfile st uid e d)
    unfold ensureUserProfile
    cases getUser st uid with
    | some _ => exact h
    | none =>
      intro p hp
      rcases List.mem_cons.mp hp with h1 | h2
      · subst h1; exact le_refl 0
      · exact h p h2
  | redeem cu iid =>
    show BalancesNonneg (redeemFlow st cu iid).2
    rw [redeemFlow_state]; exact h
  | swap cu iid =>
    show BalancesNonneg (swapFlow st cu iid).2
    rw [swapFlow_state]; exact h
  | listItem cu nid form now =>
    intro p hp
    simp only [stepOp] at hp
    rw [handleSubmit_users] at hp
    exact h p hp
  | moderate lid a =>
    intro p hp
    exact h p hp
  | deleteUser uid =>
    intro p hp
    exact h p (List.mem_of_mem_filter hp)

/-- A whole operation sequence preserves non-negativity of balances. -/
theorem balancesNonneg_runOps (ops : List Op) :
    ∀ st : FirestoreState, BalancesNonneg st → BalancesNonneg (runOps st ops) := by
  induction ops with
  | nil => intro st h; exact h
  | cons op t ih => intro st h; exact ih _ (balancesNonneg_step st op h)

/-- An oversize selection is dropped wholesale. -/
theorem handleImageUpload_reject (images files : List String)
    (h : 5 < files.length + images.length) :
    handleImageUpload images files = images := by
  unfold handleImageUpload
  rw [if_pos h]

/-- Removing an image never lengthens the list. -/
theorem handleRemoveImage_length_le (images : List String) (i : Nat) :
    (handleRemoveImage images i).length ≤ images.length := by
  unfold handleRemoveImage
  calc ((images.enum.filter fun p => p.1 ≠ i).map Prod.snd).length
      = (images.enum.filter fun p => p.1 ≠ i).length := List.length_map _ _
    _ ≤ images.enum.length := List.length_filter_le _ _
    _ = images.length := List.enum_length

/-- One image event keeps the list within the 5-image cap. -/
theorem stepImages_bound (images : List String) (ev : ImageEvent)
    (h : images.length ≤ 5) : (stepImages images ev).length ≤ 5 := by
  cases ev with
  | upload files =>
    show (handleImageUpload images files).length ≤ 5
    unfold handleImageUpload
    split
    · exact h
    · rw [List.length_append, List.length_map]
      omega
  | remove i => exact le_trans (handleRemoveImage_length_le images i) h

/-- Any event sequence starting within the cap stays within the cap. -/
theorem foldImages_bound (evs : List ImageEvent) :
    ∀ images : List String, images.length ≤ 5 →
      (evs.foldl stepImages images).length ≤ 5 := by
  induction evs with
  | nil => intro images h; exact h
  | cons ev t ih => intro images h; exact ih _ (stepImages_bound images ev h)

/-- Claim C1: the source reports a successful redemption, yet neither the
debit of the listing's pointsValue nor the status change to redeemed takes
place: with listing L1 (pointsValue 100, available) and redeemer U2 holding
150 points, `redeemFlow` answers success while the balance of U2 stays 150
and the status of L1 stays available, contradicting the all-or-nothing
postcondition of the claim. -/
theorem redeem_reports_success_without_debit_or_status_change :
    (redeemFlow c1State (some "U2") "L1").1 = RedeemResult.success ∧
    balanceOf (redeemFlow c1State (some "U2") "L1").2 "U2" = 150 ∧
    (getItem (redeemFlow c1State (some "U2") "L1").2 "L1").map Item.status
      = some "available" :=
  ⟨rfl, rfl, rfl⟩

/-- Claim C2: every balance stored after any operation sequence from the
empty store is non-negative; a freshly bootstrapped profile carries balance
0; the redemption flow never mutates the store (so no debit is ever applied,
and in particular none below the balance); and the balance gate lets the
flow reach its success path only when the balance is at least the listing's
pointsValue. -/
theorem points_balance_never_negative :
    (∀ (ops : List Op) (uid : String) (u : UserProfile),
        getUser (runOps initialState ops) uid = some u → 0 ≤ u.points) ∧
    (∀ (st : FirestoreState) (uid : String) (e : Option String) (d : String),
        getUser st uid = none →
        getUser (ensureUserProfile st uid e d) uid =
          some { email := e.getD "anonymous@rewear.com", points := 0, memberSince := d }) ∧
    (∀ (st : FirestoreState) (cu : Option String) (iid : String),
        (redeemFlow st cu iid).2 = st) ∧
    (∀ (st : FirestoreState) (uid : String) (item : Item) (u : UserProfile),
        getUser st uid = some u →
        handleRedeemPoints st (some uid) item = RedeemResult.success →
        item.pointsValue.getD 0 ≤ u.points) := by
  refine ⟨?_, ?_, ?_, ?_⟩
  · intro ops uid u h
    have hinit : BalancesNonneg initialState := by
      intro p hp
      simp [initialState] at hp
    exact balancesNonneg_runOps ops initialState hinit (uid, u) (assocLookup_mem h)
  · intro st uid e d h
    unfold ensureUserProfile
    rw [h]
    simp [getUser, assocLookup]
  · exact redeemFlow_state
  · intro st uid item u hu hs
    unfold handleRedeemPoints at hs
    dsimp only at hs
    rw [hu] at hs
    split at hs
    · simp at hs
    · split at hs
      · simp at hs
      · dsimp only at hs
        split at hs
        · simp at hs
        · omega

/-- Witness for C2: instantiates each conjunct at a concrete store. -/
theorem points_balance_never_negative_witness :
    0 ≤ ({ email := "anonymous@rewear.com", points := 0
         , memberSince := "2026-01-01" } : UserProfile).points ∧
    getUser (ensureUserProfile initialState "U1" none "2026-01-01") "U1" =
      some { email := "anonymous@rewear.com", points := 0
           , memberSince := "2026-01-01" } ∧
    (redeemFlow c2State (some "U2") "L1").2 = c2State ∧
    sampleItem.pointsValue.getD 0 ≤ u2Profile.points :=
  ⟨points_balance_never_negative.1 [Op.ensureProfile "U1" none "2026-01-01"] "U1"
      { email := "anonymous@rewear.com", points := 0, memberSince := "2026-01-01" } rfl,
   points_balance_never_negative.2.1 initialState "U1" none "2026-01-01" rfl,
   points_balance_never_negative.2.2.1 c2State (some "U2") "L1",
   points_balance_never_negative.2.2.2 c2State "U2" sampleItem u2Profile rfl rfl⟩

/-- Claim C3: a logged-in user redeeming a listing they own gets the
owner-cannot-redeem error and the store is unchanged. -/
theorem redeem_own_listing_rejected (st : FirestoreState) (itemId uid : String)
    (item : Item) (hget : getItem st itemId = some item)
    (howner : uid = item.userId) :
    redeemFlow st (some uid) itemId = (RedeemResult.ownerCannotRedeem, st) := by
  unfold redeemFlow
  rw [hget]
  dsimp only
  unfold handleRedeemPoints
  dsimp only
  rw [if_pos howner]

/-- Witness for C3: U1 redeeming the listing U1 owns. -/
theorem redeem_own_listing_rejected_witness :
    redeemFlow c3State (some "U1") "L1" = (RedeemResult.ownerCannotRedeem, c3State) :=
  redeem_own_listing_rejected c3State "L1" "U1" sampleItem rfl rfl

/-- Claim C4 counterexample: the owner U1, holding 50 points against a
pointsValue of 100, is a redeemer with balance strictly below pointsValue,
yet the flow answers owner-cannot-redeem, not insufficient-funds, because
the ownership check runs first. -/
theorem redeem_insufficient_funds_owner_counterexample :
    sampleItem.pointsValue = some 100 ∧
    balanceOf c4State "U1" = 50 ∧
    (redeemFlow c4State (some "U1") "L1").1 = RedeemResult.ownerCannotRedeem ∧
    (redeemFlow c4State (some "U1") "L1").1 ≠ RedeemResult.insufficientFunds := by
  refine ⟨rfl, rfl, rfl, by decide⟩

/-- Claim C4 (amended): for a listing with pointsValue set and a logged-in
redeemer other than the owner whose non-negative balance is strictly below
that pointsValue, the flow answers insufficient-funds and the store is
unchanged. -/
theorem redeem_insufficient_funds (st : FirestoreState) (itemId uid : String)
    (item : Item) (n : Int) (hget : getItem st itemId = some item)
    (hne : uid ≠ item.userId) (hpv : item.pointsValue = some n)
    (hb0 : 0 ≤ balanceOf st uid) (hlt : balanceOf st uid < n) :
    redeemFlow st (some uid) itemId = (RedeemResult.insufficientFunds, st) := by
  have hn0 : n ≠ 0 := by omega
  have ht : jsTruthy item.pointsValue = true := by
    rw [hpv]
    simp [jsTruthy, hn0]
  unfold redeemFlow
  rw [hget]
  dsimp only
  unfold handleRedeemPoints
  dsimp only
  rw [if_neg hne, if_neg (by simp [ht])]
  cases hgu : getUser st uid with
  | none => rfl
  | some u =>
    have hb : balanceOf st uid = u.points := by
      unfold balanceOf
      rw [hgu]
    rw [hb] at hlt
    have hplt : u.points < item.pointsValue.getD 0 := by
      rw [hpv]
      exact hlt
    dsimp only
    rw [if_pos hplt]

/-- Witness for C4: outside user U3 with 50 points against pointsValue 100. -/
theorem redeem_insufficient_funds_witness :
    redeemFlow c4wState (some "U3") "L1" = (RedeemResult.insufficientFunds, c4wState) :=
  redeem_insufficient_funds c4wState "L1" "U3" sampleItem 100 rfl (by decide) rfl
    (by decide) (by decide)

/-- Claim C5: two swap requests on the same available listing, issued by two
different non-owner users with the first never resolved, both report success;
the source creates no swap-request document, leaves the store unchanged, and
has no pending-swap error at all. -/
theorem double_swap_request_both_report_success :
    (swapFlow c5State (some "U2") "L1").1 = SwapResult.success ∧
    (swapFlow (swapFlow c5State (some "U2") "L1").2 (some "U3") "L1").1
      = SwapResult.success ∧
    (swapFlow (swapFlow c5State (some "U2") "L1").2 (some "U3") "L1").2 = c5State :=
  ⟨rfl, rfl, rfl⟩

/-- Claim C6: moderation performs the terminal-to-terminal edge the state
machine forbids: rejecting listing L1 while its status is redeemed silently
sets the status to rejected instead of failing with an invalid-transition
error. -/
theorem moderate_rejects_from_terminal_redeemed :
    (getItem c6State "L1").map Item.status = some "redeemed" ∧
    (getItem (handleModerateListing c6State "L1" "reject") "L1").map Item.status
      = some "rejected" :=
  ⟨rfl, rfl⟩

/-- Claim C7: redeeming the same listing twice in immediate succession
reports success both times and never debits: the first call leaves the store
unchanged, so the second passes the same checks, and the balance of U2 is
still 150 afterwards. -/
theorem double_redeem_both_report_success :
    (redeemFlow c7State (some "U2") "L1").1 = RedeemResult.success ∧
    (redeemFlow (redeemFlow c7State (some "U2") "L1").2 (some "U2") "L1").1
      = RedeemResult.success ∧
    balanceOf (redeemFlow (redeemFlow c7State (some "U2") "L1").2 (some "U2") "L1").2 "U2"
      = 150 :=
  ⟨rfl, rfl, rfl⟩

/-- Claim C8: every successful item-listing submission stores a document
whose status field is available. -/
theorem new_listing_created_available (st : FirestoreState) (uid newId : String)
    (form : ListItemForm) (now : String) :
    (getItem (handleSubmit st (some uid) newId form now) newId).map Item.status
      = some "available" := by
  simp [handleSubmit, getItem, assocLookup, mkNewItem]

/-- Claim C9 counterexample: submitting the numeric points field with the
string -5 stores `pointsValue = -5`, a negative integer, refuting the claim
that a stored pointsValue is absent or non-negative. -/
theorem negative_points_value_stored :
    (mkNewItem "U1" c9Form "2026-01-01").pointsValue = some (-5) ∧ (-5 : Int) < 0 :=
  ⟨rfl, by decide⟩

/-- Claim C9 (amended): the stored pointsValue equals the parsed form field
(absent exactly when the field is empty, with no sign restriction), and a
listing whose pointsValue is absent can never be redeemed with points. -/
theorem points_value_parsed_and_absent_swap_only :
    (∀ (uid : String) (form : ListItemForm) (now : String),
        (mkNewItem uid form now).pointsValue = form.pointsValue) ∧
    (∀ (st : FirestoreState) (cu : Option String) (item : Item),
        item.pointsValue = none →
        handleRedeemPoints st cu item ≠ RedeemResult.success) := by
  constructor
  · intro uid form now
    cases h : form.pointsValue <;> simp [mkNewItem, h]
  · intro st cu item h hs
    unfold handleRedeemPoints at hs
    cases cu with
    | none => simp at hs
    | some uid =>
      dsimp only at hs
      split at hs
      · simp at hs
      · split at hs
        · simp at hs
        · next hc =>
          rw [h] at hc
          exact hc rfl

/-- Witness for C9 (amended): an empty points field stored as absent, on a
swap-only listing that cannot be redeemed. -/
theorem points_value_parsed_and_absent_swap_only_witness :
    (mkNewItem "U1" c9wForm "2026-01-01").pointsValue = c9wForm.pointsValue ∧
    handleRedeemPoints initialState (some "U2") swapOnlyItem ≠ RedeemResult.success :=
  ⟨points_value_parsed_and_absent_swap_only.1 "U1" c9wForm "2026-01-01",
   points_value_parsed_and_absent_swap_only.2 initialState (some "U2") swapOnlyItem rfl⟩

/-- Claim C10: an upload that would push the image count above 5 is dropped
wholesale, removal never lengthens the list, every upload-remove event
sequence from the empty list stays within 5 images, and hence every created
listing whose images come from such a sequence carries at most 5 images. -/
theorem image_list_bounded_by_five :
    (∀ (images files : List String), 5 < files.length + images.length →
        handleImageUpload images files = images) ∧
    (∀ (images : List String) (i : Nat),
        (handleRemoveImage images i).length ≤ images.length) ∧
    (∀ evs : List ImageEvent, (runImages evs).length ≤ 5) ∧
    (∀ (uid : String) (form : ListItemForm) (now : String) (evs : List ImageEvent),
        form.images = runImages evs →
        (mkNewItem uid form now).images.length ≤ 5) := by
  refine ⟨handleImageUpload_reject, handleRemoveImage_length_le, ?_, ?_⟩
  · intro evs
    exact foldImages_bound evs [] (by simp)
  · intro uid form now evs h
    have hi : (mkNewItem uid form now).images = form.images := rfl
    rw [hi, h]
    exact foldImages_bound evs [] (by simp)

/-- Witness for C10: a rejected oversize upload, a removal, a bounded event
run, and a created listing with 4 images. -/
theorem image_list_bounded_by_five_witness :
    handleImageUpload ["a", "b", "c"] ["d", "e", "f"] = ["a", "b", "c"] ∧
    (handleRemoveImage ["a", "b"] 0).length ≤ 2 ∧
    (runImages [ImageEvent.upload ["a", "b", "c", "d"], ImageEvent.remove 1]).length ≤ 5 ∧
    (mkNewItem "U1" c10Form "2026-01-01").images.length ≤ 5 :=
  ⟨image_list_bounded_by_five.1 ["a", "b", "c"] ["d", "e", "f"] (by decide),
   image_list_bounded_by_five.2.1 ["a", "b"] 0,
   image_list_bounded_by_five.2.2.1 [ImageEvent.upload ["a", "b", "c", "d"], ImageEvent.remove 1],
   image_list_bounded_by_five.2.2.2 "U1" c10Form "2026-01-01"
     [ImageEvent.upload ["a", "b", "c", "d"]] rfl⟩

end ReWear
